import Mathlib

/-
Verification of the screen-sharing server (src/unified_server.py,
src/screen_capture.py) against its natural-language specification.

The Python classes are shallowly embedded as Lean structures and pure
functions.  Times are rationals, Python ints are Lean Int, frames are
abstract tokens.  WebSocket sends are modelled as a list of emissions
(a delivery target paired with an event), and delivery failures are
modelled by an explicit list of the ids whose send raises.
-/

/-
Basic data.  Monitor mirrors the entries of ScreenCapture.monitors
(only the geometry fields are relevant).  Frame stands for the base64
JPEG strings held in ScreenCapture.current_frame: either a frame
encoded from a captured screenshot, or the synthetic test-pattern
frame produced by _generate_test_frame.
-/

structure Monitor where
  width : Int
  height : Int
deriving DecidableEq

inductive Frame where
  | encoded (data : Nat)
  | test
deriving DecidableEq

/-
Outcome of one call into the external capture and encode capabilities
during a tick of a capture loop: either a successfully encoded frame
or a raised exception.
-/
inductive CaptureOutcome where
  | ok (data : Nat)
  | err
deriving DecidableEq

/-
ScreenCapture of src/unified_server.py (lines 42-262).
-/

structure ScreenCapture where
  target_fps : Int
  target_resolution : List Int
  quality : Int
  running : Bool
  current_frame : Option Frame
  frame_count : Nat
  start_time : ℚ
  last_fps_time : ℚ
  actual_fps : ℚ
  monitors : List Monitor
  selected_monitor : Int
deriving DecidableEq

/-- ScreenCapture.__init__ with its default arguments, at a given clock
value t0 (time.time at construction) and with a given monitor list. -/
def ScreenCapture.init (t0 : ℚ) (monitors : List Monitor) : ScreenCapture :=
  { target_fps := 60
    target_resolution := [1280, 720]
    quality := 85
    running := false
    current_frame := none
    frame_count := 0
    start_time := t0
    last_fps_time := t0
    actual_fps := 0
    monitors := monitors
    selected_monitor := 0 }

/-- ScreenCapture.select_monitor (unified_server.py lines 82-88). -/
def select_monitor (c : ScreenCapture) (monitor_id : Int) : ScreenCapture × Bool :=
  if 0 ≤ monitor_id ∧ monitor_id < (c.monitors.length : Int) then
    ({ c with selected_monitor := monitor_id }, true)
  else (c, false)

/-- ScreenCapture.start_capture (unified_server.py lines 90-97): a no-op
when already running, otherwise sets the running flag. -/
def start_capture (c : ScreenCapture) : ScreenCapture :=
  if c.running then c else { c with running := true }

/-- ScreenCapture.stop_capture (unified_server.py lines 99-108): clears
the running flag, which the capture loop observes as its exit condition. -/
def stop_capture (c : ScreenCapture) : ScreenCapture :=
  { c with running := false }

/-- ScreenCapture._update_fps (unified_server.py lines 224-230): at most
once per second, recomputes actual_fps as frame_count divided by the time
since start_time (the Python guard is current_time > self.start_time). -/
def update_fps (c : ScreenCapture) (now : ℚ) : ScreenCapture :=
  if 1 ≤ now - c.last_fps_time then
    { c with
        actual_fps := if c.start_time < now then (c.frame_count : ℚ) / (now - c.start_time) else 0
        last_fps_time := now }
  else c

/-- One iteration of ScreenCapture._capture_loop (unified_server.py lines
114-158), excluding the pacing sleep: on a successful capture the encoded
frame overwrites current_frame, frame_count is incremented and _update_fps
runs; on an exception the handler at lines 156-158 stores the generated
test-pattern frame and the rest of the tick body is skipped. -/
def capture_tick (c : ScreenCapture) (r : CaptureOutcome) (now : ℚ) : ScreenCapture :=
  match r with
  | CaptureOutcome.ok d =>
      update_fps { c with current_frame := some (Frame.encoded d), frame_count := c.frame_count + 1 } now
  | CaptureOutcome.err => { c with current_frame := some Frame.test }

/-- First statement of ScreenCapture.update_settings (unified_server.py
lines 249-251): the Python truthiness test, so None and 0 are skipped. -/
def apply_fps (c : ScreenCapture) : Option Int → ScreenCapture
  | some v => if v ≠ 0 ∧ v ≠ c.target_fps then { c with target_fps := v } else c
  | none => c

/-- Second statement of update_settings (lines 253-255): None and the
empty list are falsy and skipped. -/
def apply_resolution (c : ScreenCapture) : Option (List Int) → ScreenCapture
  | some r => if r ≠ [] ∧ r ≠ c.target_resolution then { c with target_resolution := r } else c
  | none => c

/-- Third statement of update_settings (lines 257-259). -/
def apply_quality (c : ScreenCapture) : Option Int → ScreenCapture
  | some q => if q ≠ 0 ∧ q ≠ c.quality then { c with quality := q } else c
  | none => c

/-- Fourth statement of update_settings (lines 261-262): the guard is
monitor is not None, so the falsy value 0 is forwarded to
select_monitor, which applies it when it indexes a monitor. -/
def apply_monitor (c : ScreenCapture) : Option Int → ScreenCapture
  | some m => (select_monitor c m).1
  | none => c

/-- ScreenCapture.update_settings (unified_server.py lines 247-262): its
four statements run in order on the shared object. -/
def update_settings (c : ScreenCapture) (fps : Option Int) (resolution : Option (List Int))
    (quality : Option Int) (monitor : Option Int) : ScreenCapture :=
  apply_monitor (apply_quality (apply_resolution (apply_fps c fps) resolution) quality) monitor

/-
ScreenCapture of src/screen_capture.py (the thread-based variant).
Frames there are raw numpy arrays, modelled as Nat tokens; the bounded
frame queue (queue.Queue with maxsize 5) is a list.
-/

structure SCCapture where
  target_fps : Int
  target_resolution : List Int
  frame_interval : ℚ
  running : Bool
  frame_queue : List Nat
  current_frame : Option Nat
  frame_count : Nat
  last_fps_time : ℚ
  actual_fps : ℚ
deriving DecidableEq

/-- ScreenCapture._update_fps (screen_capture.py lines 101-109): counts
the frame, and once a second starts a fresh window, reporting the count
of the closing window divided by its duration and resetting the counter. -/
def sc_update_fps (c : SCCapture) (now : ℚ) : SCCapture :=
  let fc := c.frame_count + 1
  if 1 ≤ now - c.last_fps_time then
    { c with
        actual_fps := (fc : ℚ) / (now - c.last_fps_time)
        frame_count := 0
        last_fps_time := now }
  else { c with frame_count := fc }

/-- The frame_queue.put_nowait logic of screen_capture.py lines 77-85:
append when there is room, otherwise drop the oldest entry first. -/
def queue_put (q : List Nat) (f : Nat) : List Nat :=
  if q.length < 5 then q ++ [f]
  else match q with
    | [] => [f]
    | _ :: rest => rest ++ [f]

/-- One iteration of ScreenCapture._capture_loop (screen_capture.py lines
53-89), excluding the pacing: a successful capture overwrites
current_frame, updates the fps counter and enqueues the frame; on an
exception the except-branch at lines 87-89 logs and issues continue, so
the state is left entirely unchanged. -/
def sc_tick (c : SCCapture) (r : CaptureOutcome) (now : ℚ) : SCCapture :=
  match r with
  | CaptureOutcome.ok d =>
      let c1 := sc_update_fps { c with current_frame := some d } now
      { c1 with frame_queue := queue_put c1.frame_queue d }
  | CaptureOutcome.err => c

/-- ScreenCapture.stop_capture (screen_capture.py lines 42-47). -/
def sc_stop_capture (c : SCCapture) : SCCapture :=
  { c with running := false }

/-
The pacing tail of screen_capture.py's _capture_loop (lines 91-99).
pace_step takes the frame interval I, the current next_frame_time n and
the current clock value t (after the tick's processing); it returns the
updated next_frame_time together with the instant at which the next
iteration begins (after the sleep, when one happens).
-/
def pace_step (I n t : ℚ) : ℚ × ℚ :=
  let nextFrameTime := n + I
  let sleepTime := nextFrameTime - t
  if 0 < sleepTime then (nextFrameTime, nextFrameTime) else (t, t)

/-- Start instants of the successive loop iterations after the first,
given the schedule reference n, the instant t at which the current
iteration began, and the processing durations of the iterations. -/
def capture_starts (I : ℚ) : ℚ → ℚ → List ℚ → List ℚ
  | _, _, [] => []
  | n, t, p :: ps =>
      let w := pace_step I n (t + p)
      w.2 :: capture_starts I w.1 w.2 ps

/-- All iteration start instants of a run of _capture_loop that begins at
t0 (where next_frame_time is initialised to the current time, line 51)
and whose iterations take the given processing durations. -/
def loop_start_times (I t0 : ℚ) (ps : List ℚ) : List ℚ :=
  t0 :: capture_starts I t0 t0 ps

/-
The session registry and control plane of ScreenShareServer
(unified_server.py lines 264-532).
-/

structure User where
  id : String
  connected_at : ℚ
  is_presenter : Bool
deriving DecidableEq

inductive MsgTarget where
  | toUser (id : String)
  | toAll
  | toAllExcept (id : String)
deriving DecidableEq

/-- Settings payload of a settings_update message (the four fields read
by _handle_settings_update at lines 464-469). -/
structure SettingsUpdate where
  fps : Option Int
  resolution : Option (List Int)
  quality : Option Int
  monitor : Option Int
deriving DecidableEq

inductive Event where
  | welcome (userId roomId : String) (isPresenter : Bool)
  | userJoined (userId : String)
  | userLeft (userId : String) (newPresenter : Option String)
  | presenterChanged (newPresenterId : String)
  | presentationStarted (presenterId : String)
  | presentationStopped (presenterId : String)
  | chatMessage (userId message : String)
  | settingsUpdated (upd : SettingsUpdate)
  | error (message : String)
deriving DecidableEq

/-- One attempted send: the delivery target paired with the event. -/
abbrev Emit := MsgTarget × Event

structure ScreenShareServer where
  screen_capture : ScreenCapture
  users : List User
  presenter_id : Option String
  room_id : String
deriving DecidableEq

/-- The in-place mutation pattern user.is_presenter = b applied to the
entry of the users dict whose key is uid. -/
def setPresenterFlag (us : List User) (uid : String) (b : Bool) : List User :=
  us.map fun u => if u.id = uid then { u with is_presenter := b } else u

/-- Python str.strip with no argument: remove leading and trailing
whitespace. -/
def pyIsSpace (c : Char) : Bool :=
  c = ' ' || c = '\t' || c = '\n' || c = '\r' || c = '\x0b' || c = '\x0c'

/-- The truthiness test not message.strip() reads the stripped text;
strip models str.strip. -/
def strip (msg : String) : String :=
  String.mk (((msg.toList.dropWhile pyIsSpace).reverse.dropWhile pyIsSpace).reverse)

/-- The connection part of ScreenShareServer.websocket_handler
(unified_server.py lines 327-357): the fresh user is inserted with role
viewer; when the room has no presenter the new user becomes presenter;
a welcome message goes to the new user and user_joined to the others. -/
def websocket_connect (s : ScreenShareServer) (uid : String) (t : ℚ) : ScreenShareServer × List Emit :=
  let u : User := { id := uid, connected_at := t, is_presenter := false }
  match s.presenter_id with
  | none =>
      ({ s with users := setPresenterFlag (s.users ++ [u]) uid true, presenter_id := some uid },
       [(MsgTarget.toUser uid, Event.welcome uid s.room_id true),
        (MsgTarget.toAllExcept uid, Event.userJoined uid)])
  | some _ =>
      ({ s with users := s.users ++ [u] },
       [(MsgTarget.toUser uid, Event.welcome uid s.room_id false),
        (MsgTarget.toAllExcept uid, Event.userJoined uid)])

/-- ScreenShareServer._request_presenter (unified_server.py lines
424-443): unconditionally revokes the current presenter's flag and
grants the role to the requester, broadcasting presenter_changed. -/
def request_presenter (s : ScreenShareServer) (uid : String) : ScreenShareServer × List Emit :=
  if uid ∈ s.users.map User.id then
    match s.presenter_id with
    | some pid =>
        ({ s with users := setPresenterFlag (setPresenterFlag s.users pid false) uid true
                  presenter_id := some uid },
         [(MsgTarget.toAll, Event.presenterChanged uid)])
    | none =>
        ({ s with users := setPresenterFlag s.users uid true, presenter_id := some uid },
         [(MsgTarget.toAll, Event.presenterChanged uid)])
  else (s, [])

/-- ScreenShareServer._user_disconnected (unified_server.py lines
476-502): removes the user; when the presenter left, capture stops and
the first remaining entry of the users dict (insertion order) becomes
presenter; a single user_left event is broadcast whose new_presenter
field is the presenter after any reassignment. -/
def user_disconnected (s : ScreenShareServer) (uid : String) : ScreenShareServer × List Emit :=
  if uid ∈ s.users.map User.id then
    if s.presenter_id = some uid then
      match s.users.filter (fun u => decide (u.id ≠ uid)) with
      | [] =>
          ({ s with screen_capture := stop_capture s.screen_capture
                    users := []
                    presenter_id := none },
           [(MsgTarget.toAll, Event.userLeft uid none)])
      | u0 :: rest =>
          ({ s with screen_capture := stop_capture s.screen_capture
                    users := setPresenterFlag (u0 :: rest) u0.id true
                    presenter_id := some u0.id },
           [(MsgTarget.toAll, Event.userLeft uid (some u0.id))])
    else
      ({ s with users := s.users.filter (fun u => decide (u.id ≠ uid)) },
       [(MsgTarget.toAll, Event.userLeft uid s.presenter_id)])
  else (s, [])

/-- ScreenShareServer._handle_chat (unified_server.py lines 445-457):
a message from a known user with non-whitespace text is broadcast with
its text stripped; nothing is stored in the server state. -/
def handle_chat (s : ScreenShareServer) (uid message : String) : ScreenShareServer × List Emit :=
  if uid ∈ s.users.map User.id ∧ strip message ≠ "" then
    (s, [(MsgTarget.toAll, Event.chatMessage uid (strip message))])
  else (s, [])

/-- Sequential processing of several chat_message commands, collecting
the emitted events. -/
def chat_fold (s : ScreenShareServer) (uid : String) : List String → ScreenShareServer × List Emit
  | [] => (s, [])
  | m :: ms =>
      let r := handle_chat s uid m
      let rest := chat_fold r.1 uid ms
      (rest.1, r.2 ++ rest.2)

/-- ScreenShareServer._handle_settings_update (unified_server.py lines
459-474): a sender other than the presenter returns immediately;
otherwise the fields are forwarded to update_settings and
settings_updated is broadcast. -/
def handle_settings_update (s : ScreenShareServer) (uid : String) (upd : SettingsUpdate) :
    ScreenShareServer × List Emit :=
  if s.presenter_id = some uid then
    ({ s with screen_capture :=
          update_settings s.screen_capture upd.fps upd.resolution upd.quality upd.monitor },
     [(MsgTarget.toAll, Event.settingsUpdated upd)])
  else (s, [])

/-- ScreenShareServer._start_presenting (unified_server.py lines
394-412): unknown senders are ignored; a non-presenter sender receives
an error event and nothing changes; the presenter starts capture and
presentation_started is broadcast. -/
def start_presenting (s : ScreenShareServer) (uid : String) : ScreenShareServer × List Emit :=
  if uid ∈ s.users.map User.id then
    if s.presenter_id = some uid then
      ({ s with screen_capture := start_capture s.screen_capture },
       [(MsgTarget.toAll, Event.presentationStarted uid)])
    else
      (s, [(MsgTarget.toUser uid, Event.error "Only the presenter can share screen")])
  else (s, [])

/-- ScreenShareServer._stop_presenting (unified_server.py lines
414-422): only the presenter branch exists; any other sender falls
through with no event and no state change. -/
def stop_presenting (s : ScreenShareServer) (uid : String) : ScreenShareServer × List Emit :=
  if s.presenter_id = some uid then
    ({ s with screen_capture := stop_capture s.screen_capture },
     [(MsgTarget.toAll, Event.presentationStopped uid)])
  else (s, [])

/-- ScreenShareServer._broadcast (unified_server.py lines 512-522): the
message is sent to every user in turn; a send that raises (its user id
listed in fails) is logged and the loop moves on; no user is removed.
The second component lists the deliveries that succeeded. -/
def broadcast_run (s : ScreenShareServer) (message : Event) (fails : List String) :
    ScreenShareServer × List (String × Event) :=
  if s.users = [] then (s, [])
  else
    (s, ((s.users.map User.id).filter (fun i => decide (¬ i ∈ fails))).map (fun i => (i, message)))

/-
Reachability of server states under the operations of the session
registry and control plane.  Fresh uuid4 ids and the monotonicity of
time.time across connections are the two environmental facts carried as
hypotheses of the connect step.
-/
inductive Reachable : ScreenShareServer → Prop where
  | init (cap : ScreenCapture) (rid : String) :
      Reachable { screen_capture := cap, users := [], presenter_id := none, room_id := rid }
  | connect (s : ScreenShareServer) (uid : String) (t : ℚ) (h : Reachable s)
      (fresh : uid ∉ s.users.map User.id)
      (mono : ∀ u ∈ s.users, u.connected_at ≤ t) :
      Reachable (websocket_connect s uid t).1
  | disconnect (s : ScreenShareServer) (uid : String) (h : Reachable s) :
      Reachable (user_disconnected s uid).1
  | request (s : ScreenShareServer) (uid : String) (h : Reachable s) :
      Reachable (request_presenter s uid).1
  | chat (s : ScreenShareServer) (uid m : String) (h : Reachable s) :
      Reachable (handle_chat s uid m).1
  | settings (s : ScreenShareServer) (uid : String) (upd : SettingsUpdate) (h : Reachable s) :
      Reachable (handle_settings_update s uid upd).1
  | startShare (s : ScreenShareServer) (uid : String) (h : Reachable s) :
      Reachable (start_presenting s uid).1
  | stopShare (s : ScreenShareServer) (uid : String) (h : Reachable s) :
      Reachable (stop_presenting s uid).1

/-
Concrete states used by witnesses and counterexamples.
-/

def cap0 : ScreenCapture := ScreenCapture.init 0 [⟨1920, 1080⟩]

def init0 : ScreenShareServer :=
  { screen_capture := cap0, users := [], presenter_id := none, room_id := "room" }

def srvA : ScreenShareServer := (websocket_connect init0 "a" 0).1

def srvAB : ScreenShareServer := (websocket_connect srvA "b" 1).1

def srvABC : ScreenShareServer := (websocket_connect srvAB "c" 2).1

def srvABrun : ScreenShareServer := (start_presenting srvAB "a").1

/-- A capture state with two monitors where monitor 1 is selected. -/
def capM : ScreenCapture :=
  { cap0 with monitors := [⟨1920, 1080⟩, ⟨1280, 720⟩], selected_monitor := 1 }

/-- ScreenCapture.__init__ of screen_capture.py with its default
arguments, at clock value t0. -/
def SCCapture.init (t0 : ℚ) : SCCapture :=
  { target_fps := 60
    target_resolution := [1280, 720]
    frame_interval := 1 / 60
    running := false
    frame_queue := []
    current_frame := none
    frame_count := 0
    last_fps_time := t0
    actual_fps := 0 }

def sc0 : SCCapture := SCCapture.init 0

/-- A run of the fps bookkeeping of screen_capture.py: _update_fps is
called once per successful tick, at the given clock values. -/
def sc_run_fps (c : SCCapture) (ts : List ℚ) : SCCapture :=
  ts.foldl sc_update_fps c

/-- A run of the fps bookkeeping of unified_server.py: one successful
tick of its capture loop per given clock value. -/
def u_run_fps (c : ScreenCapture) (ts : List ℚ) : ScreenCapture :=
  ts.foldl (fun c2 t => capture_tick c2 (CaptureOutcome.ok 0) t) c

/-- Tick instants used by the fps counterexample: ten frames per second
would give ticks every tenth of a second; here one early tick and one
very late tick. -/
def fpsTrace : List ℚ := [1 / 2, 10]

/-- Modelled from the claim text for comparison: the number of frames
produced during the window of width w ending at instant now. -/
def spec_window_count (ts : List ℚ) (now w : ℚ) : Nat :=
  (ts.filter (fun τ => decide (now - w < τ) && decide (τ ≤ now))).length

/-
Theorems.
-/

lemma pace_step_eq_max (I n t : ℚ) : pace_step I n t = (max (n + I) t, max (n + I) t) := by
  simp only [pace_step]
  split
  · next h =>
    have ht : t ≤ n + I := by linarith
    rw [max_eq_left ht]
  · next h =>
    have ht : n + I ≤ t := by linarith
    rw [max_eq_right ht]

lemma capture_starts_chain (I : ℚ) :
    ∀ (ps : List ℚ) (t : ℚ),
      List.Chain' (fun a b => a + I ≤ b) (t :: capture_starts I t t ps) := by
  intro ps
  induction ps with
  | nil =>
      intro t
      simp [capture_starts]
  | cons p ps ih =>
      intro t
      rw [capture_starts, pace_step_eq_max]
      exact List.chain'_cons.mpr ⟨le_max_left _ _, ih (max (t + I) (t + p))⟩

/-- C9: on every tick the schedule advances by exactly one frame
interval (next wake = previous reference + 1/fps when the loop is on
time), a late loop resets the reference to the current time, and as a
consequence consecutive iteration start instants of the capture loop
are always at least one frame interval apart: no burst of catch-up
ticks ever happens. -/
theorem c9_pacing :
    (∀ fps n t : ℚ, t < n + 1 / fps →
        pace_step (1 / fps) n t = (n + 1 / fps, n + 1 / fps)) ∧
    (∀ fps n t : ℚ, n + 1 / fps ≤ t →
        pace_step (1 / fps) n t = (t, t)) ∧
    (∀ (fps t0 : ℚ) (ps : List ℚ),
        List.Chain' (fun a b => a + 1 / fps ≤ b) (loop_start_times (1 / fps) t0 ps)) := by
  refine ⟨?_, ?_, ?_⟩
  · intro fps n t h
    simp only [pace_step]
    rw [if_pos (by linarith)]
  · intro fps n t h
    simp only [pace_step]
    rw [if_neg (by linarith)]
  · intro fps t0 ps
    simpa [loop_start_times] using capture_starts_chain (1 / fps) ps t0

/-- Witness for c9_pacing at frame interval one, instantiated both on a
tick that finished early and on a tick that overran. -/
theorem c9_witness :
    pace_step (1 / 1) 0 0 = (0 + 1 / 1, 0 + 1 / 1) ∧
    pace_step (1 / 1) 0 5 = (5, 5) ∧
    List.Chain' (fun a b => a + 1 / 1 ≤ b) (loop_start_times (1 / 1) 0 [2]) :=
  ⟨c9_pacing.1 1 0 0 (by norm_num), c9_pacing.2.1 1 0 5 (by norm_num), c9_pacing.2.2 1 0 [2]⟩

/-- C2 counterexample: in the two-user room where a is presenter, a
settings_update from b leaves the whole state unchanged but emits no
event at all, so b never receives the error event the claim promises. -/
theorem c2_counterexample :
    (handle_settings_update srvAB "b" ⟨some 30, none, some 50, none⟩).1 = srvAB ∧
    (handle_settings_update srvAB "b" ⟨some 30, none, some 50, none⟩).2 = [] := by
  decide

/-- C2 (amended): a settings_update whose sender is not the presenter
leaves the server state, and with it every Settings field, bit-for-bit
unchanged, and is silently ignored: no event of any kind is emitted. -/
theorem c2_settings_update_silent (s : ScreenShareServer) (uid : String) (upd : SettingsUpdate)
    (h : s.presenter_id ≠ some uid) :
    handle_settings_update s uid upd = (s, []) := by
  unfold handle_settings_update
  rw [if_neg h]

/-- Witness for c2_settings_update_silent on the concrete two-user room. -/
theorem c2_witness :
    handle_settings_update srvAB "b" ⟨some 60, none, none, none⟩ = (srvAB, []) :=
  c2_settings_update_silent srvAB "b" ⟨some 60, none, none, none⟩ (by decide)

set_option maxRecDepth 8000 in
/-- C3 counterexample: after 51 chat_message commands the server state
is exactly the state before the first of them, and all 51 messages were
broadcast; nothing was retained, so no 50-entry log exists. -/
theorem c3_counterexample :
    (chat_fold srvAB "a" (List.replicate 51 "hello")).1 = srvAB ∧
    (chat_fold srvAB "a" (List.replicate 51 "hello")).2.length = 51 := by
  decide

/-- C3 (amended): the server keeps no chat log at all; a chat_message
from a known user with non-whitespace text is broadcast once with its
text stripped, a whitespace-only message is silently dropped, and in
every case the server state is left unchanged. -/
theorem c3_no_chat_log (s : ScreenShareServer) (uid m : String) :
    (handle_chat s uid m).1 = s ∧
    (uid ∈ s.users.map User.id → strip m ≠ "" →
      (handle_chat s uid m).2 = [(MsgTarget.toAll, Event.chatMessage uid (strip m))]) ∧
    (strip m = "" → (handle_chat s uid m).2 = []) := by
  refine ⟨?_, ?_, ?_⟩
  · unfold handle_chat
    split <;> rfl
  · intro h1 h2
    unfold handle_chat
    rw [if_pos ⟨h1, h2⟩]
  · intro h
    unfold handle_chat
    rw [if_neg (fun hc => hc.2 h)]

/-- Witness for c3_no_chat_log on the concrete two-user room. -/
theorem c3_witness :
    (handle_chat srvAB "a" "hello").1 = srvAB ∧
    (handle_chat srvAB "a" "hello").2 =
      [(MsgTarget.toAll, Event.chatMessage "a" (strip "hello"))] :=
  ⟨(c3_no_chat_log srvAB "a" "hello").1,
   (c3_no_chat_log srvAB "a" "hello").2.1 (by decide) (by decide)⟩

/-- C5 counterexample: a failing tick of the unified capture loop does
not retain the previous good frame; it overwrites the frame cache with
the generated test-pattern frame. -/
theorem c5_counterexample :
    (capture_tick { cap0 with running := true, current_frame := some (Frame.encoded 7) }
        CaptureOutcome.err 5).current_frame = some Frame.test ∧
    ({ cap0 with running := true, current_frame := some (Frame.encoded 7) } :
        ScreenCapture).current_frame = some (Frame.encoded 7) ∧
    (some Frame.test ≠ some (Frame.encoded 7)) := by
  decide

/-- C5 (amended): a capture or encode failure on a tick never stops
either capture loop (the running flag is only cleared by stop); in
screen_capture.py the failing tick leaves the state, including the
cached frame, entirely unchanged, while in unified_server.py the
failing tick skips the counters but replaces the cached frame with the
synthetic test-pattern frame instead of retaining the last good one. -/
theorem c5_error_tick_semantics :
    (∀ (c : ScreenCapture) (r : CaptureOutcome) (now : ℚ),
        (capture_tick c r now).running = c.running) ∧
    (∀ (c : ScreenCapture) (now : ℚ),
        (capture_tick c CaptureOutcome.err now).current_frame = some Frame.test ∧
        (capture_tick c CaptureOutcome.err now).frame_count = c.frame_count) ∧
    (∀ c : ScreenCapture, (stop_capture c).running = false) ∧
    (∀ (c : SCCapture) (r : CaptureOutcome) (now : ℚ),
        (sc_tick c r now).running = c.running) ∧
    (∀ (c : SCCapture) (now : ℚ), sc_tick c CaptureOutcome.err now = c) ∧
    (∀ c : SCCapture, (sc_stop_capture c).running = false) := by
  refine ⟨?_, ?_, ?_, ?_, ?_, ?_⟩
  · intro c r now
    cases r with
    | ok d =>
        simp only [capture_tick, update_fps]
        split <;> rfl
    | err => rfl
  · intro c now
    exact ⟨rfl, rfl⟩
  · intro c
    rfl
  · intro c r now
    cases r with
    | ok d =>
        simp only [sc_tick, sc_update_fps]
        split <;> rfl
    | err => rfl
  · intro c now
    rfl
  · intro c
    rfl

/-- C6 counterexample: in the running two-user room where a presents, a
stop_presenting from viewer b emits no event at all (in particular no
error event) and changes nothing; the capture loop keeps running. -/
theorem c6_counterexample :
    stop_presenting srvABrun "b" = (srvABrun, []) ∧
    srvABrun.screen_capture.running = true ∧
    srvABrun.presenter_id = some "a" := by
  decide

/-- C6 (amended): a stop_presenting from a sender other than the
presenter is silently ignored: no event, no state change, capture not
stopped; a start_presenting from a connected non-presenter performs no
state change and sends an error event to the sender only. -/
theorem c6_nonpresenter_auth (s : ScreenShareServer) (uid : String)
    (h : s.presenter_id ≠ some uid) :
    stop_presenting s uid = (s, []) ∧
    (uid ∈ s.users.map User.id →
      start_presenting s uid =
        (s, [(MsgTarget.toUser uid, Event.error "Only the presenter can share screen")])) := by
  constructor
  · unfold stop_presenting
    rw [if_neg h]
  · intro hm
    unfold start_presenting
    rw [if_pos hm, if_neg h]

/-- Witness for c6_nonpresenter_auth on the concrete running room. -/
theorem c6_witness :
    stop_presenting srvABrun "c" = (srvABrun, []) ∧
    start_presenting srvABrun "b" =
      (srvABrun, [(MsgTarget.toUser "b", Event.error "Only the presenter can share screen")]) :=
  ⟨(c6_nonpresenter_auth srvABrun "c" (by decide)).1,
   (c6_nonpresenter_auth srvABrun "b" (by decide)).2 (by decide)⟩

/-- C7 counterexample: broadcasting to the three-user room while the
send to b raises delivers to a and c, but b is not treated as
disconnected: b is still a member of the room afterwards, and no leave
is triggered (the state is unchanged). -/
theorem c7_counterexample :
    broadcast_run srvABC (Event.chatMessage "a" "hi") ["b"] =
      (srvABC, [("a", Event.chatMessage "a" "hi"), ("c", Event.chatMessage "a" "hi")]) ∧
    "b" ∈ srvABC.users.map User.id := by
  decide

/-- C7 (amended): a delivery failure during the broadcast fan-out is
only logged: the failing connection is not removed (no Session Registry
leave happens, the state is unchanged) while delivery to every
non-failing connection still proceeds. -/
theorem c7_fanout_isolation (s : ScreenShareServer) (message : Event) (fails : List String) :
    (broadcast_run s message fails).1 = s ∧
    (broadcast_run s message fails).2 =
      ((s.users.map User.id).filter (fun i => decide (¬ i ∈ fails))).map
        (fun i => (i, message)) := by
  unfold broadcast_run
  split
  · next h => simp [h]
  · exact ⟨rfl, rfl⟩

/-
The session-registry invariant: ids are distinct, the is_presenter
flags mark exactly the user referenced by presenter_id, the presenter
is a member, and the users dict is ordered by non-decreasing join time.
-/
structure RegOk (s : ScreenShareServer) : Prop where
  nodup : (s.users.map User.id).Nodup
  flag_iff : ∀ u ∈ s.users, (u.is_presenter = true ↔ s.presenter_id = some u.id)
  sorted : s.users.Pairwise (fun a b => a.connected_at ≤ b.connected_at)
  pres_mem : ∀ p : String, s.presenter_id = some p → p ∈ s.users.map User.id

lemma setFlag_id (u : User) (uid : String) (b : Bool) :
    (if u.id = uid then { u with is_presenter := b } else u).id = u.id := by
  split <;> rfl

lemma setFlag_connected (u : User) (uid : String) (b : Bool) :
    (if u.id = uid then { u with is_presenter := b } else u).connected_at = u.connected_at := by
  split <;> rfl

lemma setFlag_map_id (us : List User) (uid : String) (b : Bool) :
    (setPresenterFlag us uid b).map User.id = us.map User.id := by
  induction us with
  | nil => rfl
  | cons u us ih =>
      simp only [setPresenterFlag, List.map_cons] at ih ⊢
      rw [setFlag_id, ih]

lemma setFlag_cases {us : List User} {uid : String} {b : Bool} {v : User}
    (hv : v ∈ setPresenterFlag us uid b) :
    (v.id = uid ∧ v.is_presenter = b) ∨ (v.id ≠ uid ∧ v ∈ us) := by
  unfold setPresenterFlag at hv
  obtain ⟨w, hw, rfl⟩ := List.mem_map.1 hv
  by_cases h : w.id = uid
  · left
    rw [if_pos h]
    exact ⟨h, rfl⟩
  · right
    rw [if_neg h]
    exact ⟨h, hw⟩

lemma setFlag_pairwise {us : List User} {uid : String} {b : Bool}
    (h : us.Pairwise (fun a c => a.connected_at ≤ c.connected_at)) :
    (setPresenterFlag us uid b).Pairwise (fun a c => a.connected_at ≤ c.connected_at) := by
  unfold setPresenterFlag
  refine h.map _ ?_
  intro a c hac
  rw [setFlag_connected, setFlag_connected]
  exact hac

lemma RegOk.of_eq {s1 s2 : ScreenShareServer} (h : RegOk s1)
    (hu : s2.users = s1.users) (hp : s2.presenter_id = s1.presenter_id) : RegOk s2 := by
  refine ⟨?_, ?_, ?_, ?_⟩
  · rw [hu]
    exact h.nodup
  · intro u hmem
    rw [hp]
    exact h.flag_iff u (hu ▸ hmem)
  · rw [hu]
    exact h.sorted
  · intro p hpe
    rw [hu]
    exact h.pres_mem p (hp ▸ hpe)

lemma regOk_connect (s : ScreenShareServer) (uid : String) (t : ℚ)
    (h : RegOk s) (fresh : uid ∉ s.users.map User.id)
    (mono : ∀ u ∈ s.users, u.connected_at ≤ t) :
    RegOk (websocket_connect s uid t).1 := by
  unfold websocket_connect
  split
  · next hp =>
      refine ⟨?_, ?_, ?_, ?_⟩
      · show ((setPresenterFlag (s.users ++ [⟨uid, t, false⟩]) uid true).map User.id).Nodup
        rw [setFlag_map_id, List.map_append, List.map_singleton]
        rw [List.nodup_append]
        refine ⟨h.nodup, List.nodup_singleton _, ?_⟩
        rw [List.disjoint_singleton]
        exact fresh
      · intro v hv
        rcases setFlag_cases hv with ⟨hid, hfl⟩ | ⟨hid, hmem⟩
        · show v.is_presenter = true ↔ some uid = some v.id
          simp [hid, hfl]
        · rcases List.mem_append.1 hmem with hv1 | hv2
          · have hff := h.flag_iff v hv1
            rw [hp] at hff
            simp only [reduceCtorEq, iff_false] at hff
            show v.is_presenter = true ↔ some uid = some v.id
            exact iff_of_false hff (fun hc => hid (Option.some.inj hc).symm)
          · rcases List.mem_singleton.1 hv2 with rfl
            exact absurd rfl hid
      · show (setPresenterFlag (s.users ++ [⟨uid, t, false⟩]) uid true).Pairwise _
        apply setFlag_pairwise
        rw [List.pairwise_append]
        refine ⟨h.sorted, List.pairwise_singleton _ _, ?_⟩
        intro a ha b hb
        rcases List.mem_singleton.1 hb with rfl
        exact mono a ha
      · intro p hpe
        obtain rfl : uid = p := Option.some.inj hpe
        rw [setFlag_map_id, List.map_append]
        exact List.mem_append.2 (Or.inr (by simp))
  · next pid hp =>
      refine ⟨?_, ?_, ?_, ?_⟩
      · show ((s.users ++ [(⟨uid, t, false⟩ : User)]).map User.id).Nodup
        rw [List.map_append, List.map_singleton, List.nodup_append]
        refine ⟨h.nodup, List.nodup_singleton _, ?_⟩
        rw [List.disjoint_singleton]
        exact fresh
      · intro v hmem
        rcases List.mem_append.1 hmem with hv1 | hv2
        · exact h.flag_iff v hv1
        · rcases List.mem_singleton.1 hv2 with rfl
          show false = true ↔ s.presenter_id = some uid
          rw [hp]
          refine iff_of_false (by simp) ?_
          intro hc
          have hpe : pid = uid := Option.some.inj hc
          exact fresh (hpe ▸ h.pres_mem pid hp)
      · show (s.users ++ [(⟨uid, t, false⟩ : User)]).Pairwise _
        rw [List.pairwise_append]
        refine ⟨h.sorted, List.pairwise_singleton _ _, ?_⟩
        intro a ha b hb
        rcases List.mem_singleton.1 hb with rfl
        exact mono a ha
      · intro p hpe
        show p ∈ (s.users ++ [(⟨uid, t, false⟩ : User)]).map User.id
        rw [List.map_append]
        refine List.mem_append.2 (Or.inl ?_)
        exact h.pres_mem p hpe

lemma regOk_request (s : ScreenShareServer) (uid : String) (h : RegOk s) :
    RegOk (request_presenter s uid).1 := by
  unfold request_presenter
  split
  · next hmem =>
      cases hp : s.presenter_id with
      | some pid =>
          refine ⟨?_, ?_, ?_, ?_⟩
          · rw [setFlag_map_id, setFlag_map_id]
            exact h.nodup
          · intro v hv
            rcases setFlag_cases hv with ⟨hid, hfl⟩ | ⟨hid, hv2⟩
            · show v.is_presenter = true ↔ some uid = some v.id
              simp [hid, hfl]
            · rcases setFlag_cases hv2 with ⟨_, hfl2⟩ | ⟨hid2, hv3⟩
              · show v.is_presenter = true ↔ some uid = some v.id
                refine iff_of_false (by simp [hfl2]) ?_
                intro hc
                exact hid (Option.some.inj hc).symm
              · have hff := h.flag_iff v hv3
                rw [hp] at hff
                show v.is_presenter = true ↔ some uid = some v.id
                refine iff_of_false ?_ (fun hc => hid (Option.some.inj hc).symm)
                intro hc
                exact hid2 (Option.some.inj (hff.1 hc)).symm
          · exact setFlag_pairwise (setFlag_pairwise h.sorted)
          · intro p hpe
            obtain rfl : uid = p := Option.some.inj hpe
            rw [setFlag_map_id, setFlag_map_id]
            exact hmem
      | none =>
          refine ⟨?_, ?_, ?_, ?_⟩
          · rw [setFlag_map_id]
            exact h.nodup
          · intro v hv
            rcases setFlag_cases hv with ⟨hid, hfl⟩ | ⟨hid, hv2⟩
            · show v.is_presenter = true ↔ some uid = some v.id
              simp [hid, hfl]
            · have hff := h.flag_iff v hv2
              rw [hp] at hff
              simp only [reduceCtorEq, iff_false] at hff
              show v.is_presenter = true ↔ some uid = some v.id
              exact iff_of_false hff (fun hc => hid (Option.some.inj hc).symm)
          · exact setFlag_pairwise h.sorted
          · intro p hpe
            obtain rfl : uid = p := Option.some.inj hpe
            rw [setFlag_map_id]
            exact hmem
  · next => exact h

lemma regOk_disconnect (s : ScreenShareServer) (uid : String) (h : RegOk s) :
    RegOk (user_disconnected s uid).1 := by
  unfold user_disconnected
  split
  · next hmem =>
      split
      · next hp =>
          cases hrem : s.users.filter (fun u => decide (u.id ≠ uid)) with
          | nil => exact ⟨by simp, by simp, by simp, by simp⟩
          | cons u0 rest =>
              have hsub : List.Sublist (u0 :: rest) s.users := by
                rw [← hrem]
                exact List.filter_sublist _
              refine ⟨?_, ?_, ?_, ?_⟩
              · rw [setFlag_map_id]
                exact h.nodup.sublist (hsub.map User.id)
              · intro v hv
                rcases setFlag_cases hv with ⟨hid, hfl⟩ | ⟨hid, hv2⟩
                · show v.is_presenter = true ↔ some u0.id = some v.id
                  simp [hid, hfl]
                · have hvfil : v ∈ s.users.filter (fun u => decide (u.id ≠ uid)) := by
                    rw [hrem]
                    exact hv2
                  have hvne : v.id ≠ uid := by
                    have := (List.mem_filter.1 hvfil).2
                    simpa using this
                  have hff := h.flag_iff v (List.mem_of_mem_filter hvfil)
                  rw [hp] at hff
                  show v.is_presenter = true ↔ some u0.id = some v.id
                  refine iff_of_false ?_ (fun hc => hid (Option.some.inj hc).symm)
                  intro hc
                  exact hvne (Option.some.inj (hff.1 hc)).symm
              · exact setFlag_pairwise (h.sorted.sublist hsub)
              · intro p hpe
                obtain rfl : u0.id = p := Option.some.inj hpe
                rw [setFlag_map_id]
                exact List.mem_map.2 ⟨u0, by simp, rfl⟩
      · next hp =>
          refine ⟨?_, ?_, ?_, ?_⟩
          · exact h.nodup.sublist ((List.filter_sublist _).map User.id)
          · intro v hv
            have hff := h.flag_iff v (List.mem_of_mem_filter hv)
            show v.is_presenter = true ↔ s.presenter_id = some v.id
            exact hff
          · exact h.sorted.sublist (List.filter_sublist _)
          · intro p hpe
            have hpe2 : s.presenter_id = some p := hpe
            have hpne : p ≠ uid := by
              intro hc
              exact hp (hc ▸ hpe2)
            obtain ⟨w, hw, hwid⟩ := List.mem_map.1 (h.pres_mem p hpe2)
            refine List.mem_map.2 ⟨w, ?_, hwid⟩
            refine List.mem_filter.2 ⟨hw, ?_⟩
            simp [hwid, hpne]
  · next => exact h

lemma handle_chat_fst (s : ScreenShareServer) (uid m : String) :
    (handle_chat s uid m).1 = s := by
  unfold handle_chat
  split <;> rfl

lemma handle_settings_update_reg (s : ScreenShareServer) (uid : String) (upd : SettingsUpdate) :
    ((handle_settings_update s uid upd).1).users = s.users ∧
    ((handle_settings_update s uid upd).1).presenter_id = s.presenter_id := by
  unfold handle_settings_update
  split <;> exact ⟨rfl, rfl⟩

lemma start_presenting_reg (s : ScreenShareServer) (uid : String) :
    ((start_presenting s uid).1).users = s.users ∧
    ((start_presenting s uid).1).presenter_id = s.presenter_id := by
  unfold start_presenting
  split
  · split <;> exact ⟨rfl, rfl⟩
  · exact ⟨rfl, rfl⟩

lemma stop_presenting_reg (s : ScreenShareServer) (uid : String) :
    ((stop_presenting s uid).1).users = s.users ∧
    ((stop_presenting s uid).1).presenter_id = s.presenter_id := by
  unfold stop_presenting
  split <;> exact ⟨rfl, rfl⟩

/-- Every reachable server state satisfies the registry invariant. -/
theorem regOk_reachable {s : ScreenShareServer} (h : Reachable s) : RegOk s := by
  induction h with
  | init cap rid => exact ⟨by simp, by simp, by simp, by simp⟩
  | connect s uid t h fresh mono ih => exact regOk_connect s uid t ih fresh mono
  | disconnect s uid h ih => exact regOk_disconnect s uid ih
  | request s uid h ih => exact regOk_request s uid ih
  | chat s uid m h ih =>
      exact RegOk.of_eq ih (by rw [handle_chat_fst]) (by rw [handle_chat_fst])
  | settings s uid upd h ih =>
      exact RegOk.of_eq ih (handle_settings_update_reg s uid upd).1
        (handle_settings_update_reg s uid upd).2
  | startShare s uid h ih =>
      exact RegOk.of_eq ih (start_presenting_reg s uid).1 (start_presenting_reg s uid).2
  | stopShare s uid h ih =>
      exact RegOk.of_eq ih (stop_presenting_reg s uid).1 (stop_presenting_reg s uid).2

lemma nodup_all_eq_length_le_one {l : List String} (h : l.Nodup) (a : String)
    (ha : ∀ x ∈ l, x = a) : l.length ≤ 1 := by
  match l with
  | [] => simp
  | [x] => simp
  | x :: y :: tl =>
      exfalso
      have hx := ha x (by simp)
      have hy := ha y (by simp)
      rw [List.nodup_cons] at h
      have hxy : x = y := hx.trans hy.symm
      rw [hxy] at h
      exact h.1 (List.mem_cons_self y tl)

/-- C1: in every state reachable by any sequence of join, leave and
request_presenter operations (chat, settings and sharing commands
included), at most one connected participant holds the presenter role. -/
theorem c1_at_most_one_presenter (s : ScreenShareServer) (h : Reachable s) :
    (s.users.filter (fun u => u.is_presenter)).length ≤ 1 := by
  have inv := regOk_reachable h
  cases hp : s.presenter_id with
  | none =>
      have hnil : s.users.filter (fun u => u.is_presenter) = [] := by
        apply List.filter_eq_nil_iff.2
        intro u hu
        have hff := inv.flag_iff u hu
        rw [hp] at hff
        simp only [reduceCtorEq, iff_false] at hff
        simpa using hff
      simp [hnil]
  | some p =>
      have hlen : (s.users.filter (fun u => u.is_presenter)).length =
          ((s.users.filter (fun u => u.is_presenter)).map User.id).length := by
        rw [List.length_map]
      rw [hlen]
      refine nodup_all_eq_length_le_one
        (inv.nodup.sublist ((List.filter_sublist _).map User.id)) p ?_
      intro x hx
      obtain ⟨u, hu, rfl⟩ := List.mem_map.1 hx
      obtain ⟨hu1, hu2⟩ := List.mem_filter.1 hu
      have hff := inv.flag_iff u hu1
      rw [hp] at hff
      have : some p = some u.id := hff.1 (by simpa using hu2)
      exact (Option.some.inj this).symm

/-- Witness for c1_at_most_one_presenter: the singleton room obtained
by one connect from the initial state. -/
theorem c1_witness :
    (srvA.users.filter (fun u => u.is_presenter)).length ≤ 1 :=
  c1_at_most_one_presenter srvA
    (Reachable.connect init0 "a" 0 (Reachable.init cap0 "room") (by decide) (by decide))

/-- C4 counterexample: in the three-user room with presenter a, the
disconnect of a reassigns the role to b but broadcasts only a user_left
event carrying b in its new_presenter field; no presenter_changed event
is emitted, contrary to the claim. -/
theorem c4_counterexample :
    (user_disconnected srvABC "a").2 = [(MsgTarget.toAll, Event.userLeft "a" (some "b"))] ∧
    ((MsgTarget.toAll, Event.presenterChanged "b") ∉ (user_disconnected srvABC "a").2) ∧
    srvABC.presenter_id = some "a" ∧
    (user_disconnected srvABC "a").1.presenter_id = some "b" := by
  decide

/-- C4 (amended): in a reachable state, when the presenter disconnects
and other participants remain, the role goes deterministically to the
head of the remaining users dict, which is the remaining participant
with the smallest joined-at timestamp (insertion order breaks ties),
and the remaining connections receive a single user_left event whose
new_presenter field names that participant (not a presenter_changed
event). -/
theorem c4_presenter_handoff (s : ScreenShareServer) (p : String) (h : Reachable s)
    (hp : s.presenter_id = some p)
    (hne : s.users.filter (fun u => decide (u.id ≠ p)) ≠ []) :
    ∃ u0 rest,
      s.users.filter (fun u => decide (u.id ≠ p)) = u0 :: rest ∧
      (user_disconnected s p).1.presenter_id = some u0.id ∧
      (∀ v ∈ u0 :: rest, u0.connected_at ≤ v.connected_at) ∧
      (user_disconnected s p).2 = [(MsgTarget.toAll, Event.userLeft p (some u0.id))] := by
  have inv := regOk_reachable h
  cases hF : s.users.filter (fun u => decide (u.id ≠ p)) with
  | nil => exact absurd hF hne
  | cons u0 rest =>
      have hred : user_disconnected s p =
          ({ s with screen_capture := stop_capture s.screen_capture
                    users := setPresenterFlag (u0 :: rest) u0.id true
                    presenter_id := some u0.id },
           [(MsgTarget.toAll, Event.userLeft p (some u0.id))]) := by
        unfold user_disconnected
        rw [if_pos (inv.pres_mem p hp), if_pos hp, hF]
      have hpw : (u0 :: rest).Pairwise (fun a b => a.connected_at ≤ b.connected_at) := by
        rw [← hF]
        exact inv.sorted.sublist (List.filter_sublist _)
      refine ⟨u0, rest, rfl, ?_, ?_, ?_⟩
      · rw [hred]
      · intro v hv
        rcases List.mem_cons.1 hv with rfl | hv2
        · exact le_refl _
        · exact (List.pairwise_cons.1 hpw).1 v hv2
      · rw [hred]

lemma reachable_srvABC : Reachable srvABC :=
  Reachable.connect srvAB "c" 2
    (Reachable.connect srvA "b" 1
      (Reachable.connect init0 "a" 0 (Reachable.init cap0 "room") (by decide) (by decide))
      (by decide) (by decide))
    (by decide) (by decide)

/-- Witness for c4_presenter_handoff on the concrete three-user room. -/
theorem c4_witness :
    ∃ u0 rest,
      srvABC.users.filter (fun u => decide (u.id ≠ "a")) = u0 :: rest ∧
      (user_disconnected srvABC "a").1.presenter_id = some u0.id ∧
      (∀ v ∈ u0 :: rest, u0.connected_at ≤ v.connected_at) ∧
      (user_disconnected srvABC "a").2 = [(MsgTarget.toAll, Event.userLeft "a" (some u0.id))] :=
  c4_presenter_handoff srvABC "a" reachable_srvABC (by decide) (by decide)

lemma apply_fps_fields (c : ScreenCapture) (f : Option Int) :
    (apply_fps c f).target_resolution = c.target_resolution ∧
    (apply_fps c f).quality = c.quality ∧
    (apply_fps c f).monitors = c.monitors ∧
    (apply_fps c f).selected_monitor = c.selected_monitor := by
  cases f with
  | none => exact ⟨rfl, rfl, rfl, rfl⟩
  | some v =>
      by_cases hc : (v ≠ 0 ∧ v ≠ c.target_fps) <;> simp [apply_fps, hc]

lemma apply_resolution_fields (c : ScreenCapture) (r : Option (List Int)) :
    (apply_resolution c r).target_fps = c.target_fps ∧
    (apply_resolution c r).quality = c.quality ∧
    (apply_resolution c r).monitors = c.monitors ∧
    (apply_resolution c r).selected_monitor = c.selected_monitor := by
  cases r with
  | none => exact ⟨rfl, rfl, rfl, rfl⟩
  | some v =>
      by_cases hc : (v ≠ [] ∧ v ≠ c.target_resolution) <;> simp [apply_resolution, hc]

lemma apply_quality_fields (c : ScreenCapture) (q : Option Int) :
    (apply_quality c q).target_fps = c.target_fps ∧
    (apply_quality c q).target_resolution = c.target_resolution ∧
    (apply_quality c q).monitors = c.monitors ∧
    (apply_quality c q).selected_monitor = c.selected_monitor := by
  cases q with
  | none => exact ⟨rfl, rfl, rfl, rfl⟩
  | some v =>
      by_cases hc : (v ≠ 0 ∧ v ≠ c.quality) <;> simp [apply_quality, hc]

lemma apply_monitor_fields (c : ScreenCapture) (m : Option Int) :
    (apply_monitor c m).target_fps = c.target_fps ∧
    (apply_monitor c m).target_resolution = c.target_resolution ∧
    (apply_monitor c m).quality = c.quality := by
  cases m with
  | none => exact ⟨rfl, rfl, rfl⟩
  | some v =>
      by_cases hc : (0 ≤ v ∧ v < (c.monitors.length : Int)) <;>
        simp [apply_monitor, select_monitor, hc]

lemma apply_fps_untruthy (c : ScreenCapture) (f : Option Int)
    (h : f = none ∨ f = some 0) : apply_fps c f = c := by
  rcases h with rfl | rfl
  · rfl
  · simp only [apply_fps]
    rw [if_neg]
    intro hc
    exact hc.1 rfl

lemma apply_resolution_untruthy (c : ScreenCapture) (r : Option (List Int))
    (h : r = none ∨ r = some []) : apply_resolution c r = c := by
  rcases h with rfl | rfl
  · rfl
  · simp only [apply_resolution]
    rw [if_neg]
    intro hc
    exact hc.1 rfl

lemma apply_quality_untruthy (c : ScreenCapture) (q : Option Int)
    (h : q = none ∨ q = some 0) : apply_quality c q = c := by
  rcases h with rfl | rfl
  · rfl
  · simp only [apply_quality]
    rw [if_neg]
    intro hc
    exact hc.1 rfl

lemma apply_fps_ne_zero (c : ScreenCapture) (f : Option Int)
    (h : c.target_fps ≠ 0) : (apply_fps c f).target_fps ≠ 0 := by
  cases f with
  | none => exact h
  | some v =>
      simp only [apply_fps]
      split
      · next hc => exact hc.1
      · exact h

lemma apply_quality_ne_zero (c : ScreenCapture) (q : Option Int)
    (h : c.quality ≠ 0) : (apply_quality c q).quality ≠ 0 := by
  cases q with
  | none => exact h
  | some v =>
      simp only [apply_quality]
      split
      · next hc => exact hc.1
      · exact h

lemma select_monitor_invalid (c : ScreenCapture) (m : Int)
    (h : ¬ (0 ≤ m ∧ m < (c.monitors.length : Int))) : (select_monitor c m).1 = c := by
  unfold select_monitor
  rw [if_neg h]

lemma select_monitor_valid (c : ScreenCapture) (m : Int)
    (h0 : 0 ≤ m) (h1 : m < (c.monitors.length : Int)) :
    (select_monitor c m).1.selected_monitor = m := by
  unfold select_monitor
  rw [if_pos ⟨h0, h1⟩]

/-- C10 counterexample: with two monitors and monitor 1 selected, an
update whose monitor field is the falsy value 0 does change the
selected monitor, so a field given as 0 is not always left unchanged. -/
theorem c10_counterexample :
    (update_settings capM none none none (some 0)).selected_monitor = 0 ∧
    capM.selected_monitor = 1 := by
  decide

/-- C10 (amended): in update_settings the fps, resolution and quality
fields are Python-truthiness gated, so an argument of None, 0 or the
empty list leaves them unchanged, and fps and quality can never become
0 through this interface; the monitor field however is gated only by
is-not-None plus the select_monitor range check, so any in-range value,
including the falsy 0, is applied, and an out-of-range or None value
leaves the selection unchanged. -/
theorem c10_update_settings_gating (c : ScreenCapture) (fps : Option Int)
    (resolution : Option (List Int)) (quality : Option Int) (monitor : Option Int) :
    ((fps = none ∨ fps = some 0) →
        (update_settings c fps resolution quality monitor).target_fps = c.target_fps) ∧
    ((resolution = none ∨ resolution = some []) →
        (update_settings c fps resolution quality monitor).target_resolution =
          c.target_resolution) ∧
    ((quality = none ∨ quality = some 0) →
        (update_settings c fps resolution quality monitor).quality = c.quality) ∧
    (monitor = none →
        (update_settings c fps resolution quality monitor).selected_monitor =
          c.selected_monitor) ∧
    (∀ m : Int, monitor = some m → ¬ (0 ≤ m ∧ m < (c.monitors.length : Int)) →
        (update_settings c fps resolution quality monitor).selected_monitor =
          c.selected_monitor) ∧
    (∀ m : Int, monitor = some m → 0 ≤ m → m < (c.monitors.length : Int) →
        (update_settings c fps resolution quality monitor).selected_monitor = m) ∧
    (c.target_fps ≠ 0 →
        (update_settings c fps resolution quality monitor).target_fps ≠ 0) ∧
    (c.quality ≠ 0 →
        (update_settings c fps resolution quality monitor).quality ≠ 0) := by
  have hmons : (apply_quality (apply_resolution (apply_fps c fps) resolution) quality).monitors
      = c.monitors := by
    rw [(apply_quality_fields _ _).2.2.1, (apply_resolution_fields _ _).2.2.1,
      (apply_fps_fields _ _).2.2.1]
  have hsel : (apply_quality (apply_resolution (apply_fps c fps) resolution) quality).selected_monitor
      = c.selected_monitor := by
    rw [(apply_quality_fields _ _).2.2.2, (apply_resolution_fields _ _).2.2.2,
      (apply_fps_fields _ _).2.2.2]
  refine ⟨?_, ?_, ?_, ?_, ?_, ?_, ?_, ?_⟩
  · intro h
    unfold update_settings
    rw [(apply_monitor_fields _ _).1, (apply_quality_fields _ _).1,
      (apply_resolution_fields _ _).1, apply_fps_untruthy c fps h]
  · intro h
    unfold update_settings
    rw [(apply_monitor_fields _ _).2.1, (apply_quality_fields _ _).2.1,
      apply_resolution_untruthy _ _ h, (apply_fps_fields _ _).1]
  · intro h
    unfold update_settings
    rw [(apply_monitor_fields _ _).2.2, apply_quality_untruthy _ _ h,
      (apply_resolution_fields _ _).2.1, (apply_fps_fields _ _).2.1]
  · intro h
    subst h
    unfold update_settings
    exact hsel
  · intro m hm hrange
    subst hm
    unfold update_settings
    simp only [apply_monitor]
    rw [select_monitor_invalid _ _ (by rw [hmons]; exact hrange)]
    exact hsel
  · intro m hm h0 h1
    subst hm
    unfold update_settings
    simp only [apply_monitor]
    exact select_monitor_valid _ _ h0 (by rw [hmons]; exact h1)
  · intro h
    unfold update_settings
    rw [(apply_monitor_fields _ _).1, (apply_quality_fields _ _).1,
      (apply_resolution_fields _ _).1]
    exact apply_fps_ne_zero _ _ h
  · intro h
    unfold update_settings
    rw [(apply_monitor_fields _ _).2.2]
    refine apply_quality_ne_zero _ _ ?_
    rw [(apply_resolution_fields _ _).2.1, (apply_fps_fields _ _).2.1]
    exact h

/-- Witness for c10_update_settings_gating: fps and quality given as 0
are ignored, an out-of-range monitor is ignored, and a valid monitor 0
is applied. -/
theorem c10_witness :
    (update_settings capM (some 0) none (some 0) (some 5)).target_fps = capM.target_fps ∧
    (update_settings capM (some 0) none (some 0) (some 5)).quality = capM.quality ∧
    (update_settings capM (some 0) none (some 0) (some 5)).selected_monitor =
      capM.selected_monitor ∧
    (update_settings capM none none none (some 0)).selected_monitor = 0 :=
  ⟨(c10_update_settings_gating capM (some 0) none (some 0) (some 5)).1 (Or.inr rfl),
   (c10_update_settings_gating capM (some 0) none (some 0) (some 5)).2.2.1 (Or.inr rfl),
   (c10_update_settings_gating capM (some 0) none (some 0) (some 5)).2.2.2.2.1 5 rfl
     (by decide),
   (c10_update_settings_gating capM none none none (some 0)).2.2.2.2.2.1 0 rfl le_rfl
     (by decide)⟩

lemma sc_update_fps_no_trigger (c : SCCapture) (t : ℚ) (h : t - c.last_fps_time < 1) :
    sc_update_fps c t = { c with frame_count := c.frame_count + 1 } := by
  simp only [sc_update_fps]
  rw [if_neg (by linarith)]

lemma sc_update_fps_trigger (c : SCCapture) (t : ℚ) (h : 1 ≤ t - c.last_fps_time) :
    sc_update_fps c t =
      { c with actual_fps := ((c.frame_count + 1 : ℕ) : ℚ) / (t - c.last_fps_time)
               frame_count := 0
               last_fps_time := t } := by
  simp only [sc_update_fps]
  rw [if_pos h]

lemma sc_run_fps_no_trigger :
    ∀ (ts : List ℚ) (c : SCCapture), (∀ τ ∈ ts, τ - c.last_fps_time < 1) →
      sc_run_fps c ts = { c with frame_count := c.frame_count + ts.length } := by
  intro ts
  induction ts with
  | nil =>
      intro c _
      simp [sc_run_fps]
  | cons τ ts ih =>
      intro c h
      have h1 : τ - c.last_fps_time < 1 := h τ (List.mem_cons_self _ _)
      have hstep : sc_run_fps c (τ :: ts) =
          sc_run_fps { c with frame_count := c.frame_count + 1 } ts := by
        simp only [sc_run_fps, List.foldl_cons]
        rw [sc_update_fps_no_trigger c τ h1]
      rw [hstep, ih { c with frame_count := c.frame_count + 1 }
        (fun τ2 h2 => h τ2 (List.mem_cons_of_mem _ h2))]
      show ({ c with frame_count := c.frame_count + 1 + ts.length } : SCCapture) =
        { c with frame_count := c.frame_count + (τ :: ts).length }
      rw [List.length_cons, Nat.add_assoc, Nat.add_comm 1 ts.length]

/-- C8 counterexample: in unified_server.py, after one frame at time
one-half and one frame at time ten (with start and window reference
zero), the update at time ten reports 2 divided by 10, the average over
the whole lifetime, while the number of frames in the most recent
one-second window divided by that window is 1; so the reported value is
not the rolling one-second measurement the claim describes. -/
theorem c8_counterexample :
    (u_run_fps cap0 fpsTrace).actual_fps = 1 / 5 ∧
    ((spec_window_count fpsTrace 10 1 : ℚ) / 1 = 1) ∧
    ((1 / 5 : ℚ) ≠ 1) := by
  refine ⟨?_, ?_, by norm_num⟩
  · norm_num [u_run_fps, fpsTrace, cap0, ScreenCapture.init, capture_tick, update_fps]
  · norm_num [spec_window_count, fpsTrace, List.filter]

/-- C8 (amended): the _update_fps of screen_capture.py is a rolling
measurement: at an update it reports the number of frames since the
previous update divided by the duration of that window, and resets the
counter and the window reference; the _update_fps of unified_server.py
instead reports frame_count divided by the time since start_time, an
average over the whole lifetime of the loop (its counter is never
reset). -/
theorem c8_rolling_vs_lifetime :
    (∀ (c : SCCapture) (now : ℚ) (ts : List ℚ),
        c.frame_count = 0 →
        (∀ τ ∈ ts, τ - c.last_fps_time < 1) →
        1 ≤ now - c.last_fps_time →
        (sc_run_fps c (ts ++ [now])).actual_fps =
          ((ts.length : ℚ) + 1) / (now - c.last_fps_time) ∧
        (sc_run_fps c (ts ++ [now])).frame_count = 0 ∧
        (sc_run_fps c (ts ++ [now])).last_fps_time = now) ∧
    (∀ (c : ScreenCapture) (d : Nat) (now : ℚ),
        1 ≤ now - c.last_fps_time → c.start_time < now →
        (capture_tick c (CaptureOutcome.ok d) now).actual_fps =
          ((c.frame_count : ℚ) + 1) / (now - c.start_time)) := by
  constructor
  · intro c now ts hfc hts hnow
    have hsplit : sc_run_fps c (ts ++ [now]) = sc_update_fps (sc_run_fps c ts) now := by
      simp [sc_run_fps, List.foldl_append]
    rw [hsplit, sc_run_fps_no_trigger ts c hts, hfc]
    rw [sc_update_fps_trigger _ _ (by exact hnow)]
    refine ⟨?_, rfl, rfl⟩
    show ((0 + ts.length + 1 : ℕ) : ℚ) / (now - c.last_fps_time) = _
    push_cast
    ring_nf
  · intro c d now h1 h2
    simp only [capture_tick, update_fps]
    rw [if_pos h1, if_pos h2]
    push_cast
    ring_nf

/-- Witness for c8_rolling_vs_lifetime: a window with one early frame
closed by an update at time two reports two frames over two seconds,
while one unified tick at time two reports one frame over two seconds. -/
theorem c8_witness :
    (sc_run_fps sc0 ([1 / 2] ++ [2])).actual_fps = 1 ∧
    (capture_tick cap0 (CaptureOutcome.ok 0) 2).actual_fps = 1 / 2 := by
  constructor
  · have h := (c8_rolling_vs_lifetime.1 sc0 2 [1 / 2] rfl
      (by
        intro τ hτ
        rw [List.mem_singleton] at hτ
        subst hτ
        norm_num [sc0, SCCapture.init])
      (by norm_num [sc0, SCCapture.init])).1
    rw [h]
    norm_num [sc0, SCCapture.init]
  · have h := c8_rolling_vs_lifetime.2 cap0 0 2 (by norm_num [cap0, ScreenCapture.init])
      (by norm_num [cap0, ScreenCapture.init])
    rw [h]
    norm_num [cap0, ScreenCapture.init]
